import Mathlib

/-
Shallow embedding of the schema and integrity layer defined in
src/src/models.py (SQLAlchemy models: User, Character, Planet, Favorite,
Post, Comment).  Timestamps (Python datetime) are modelled as natural
numbers; a nullable column of SQL type T is an Option; the JSON-like
dictionaries produced by the serialize methods are association lists of
string keys and Value payloads.
-/

namespace Models

/-- JSON-like values produced by the serialize methods of models.py. -/
inductive Value where
  | null
  | int (n : Int)
  | str (s : String)
  | bool (b : Bool)
  | obj (fields : List (String × Value))
deriving Repr, BEq

/-- A Python dict as returned by a serialize method: an ordered list of
key/value pairs. -/
abbrev Json := List (String × Value)

/-- Interpretation of an optional integer attribute as a JSON value
(None becomes null). -/
def ofOptInt : Option Int → Value
  | none => Value.null
  | some n => Value.int n

/-- Abstraction of datetime.isoformat: an injective rendering of the
timestamp.  The claims depend only on presence and equality of the
rendered value, never on the concrete format. -/
def isoformat (t : Nat) : String := toString t

/-- Interpretation of the pattern `x.isoformat() if x else None` used for
every timestamp column in models.py (a datetime object is always truthy,
so the guard is a None test). -/
def ofOptTime : Option Nat → Value
  | none => Value.null
  | some t => Value.str (isoformat t)

/-- Python truthiness of an optional integer column: None and 0 are falsy,
every other value is truthy.  Favorite.serialize branches on
`if self.character_id:` and `if self.planet_id:`, which is exactly this
test. -/
def pyTruthy : Option Nat → Bool
  | none => false
  | some n => n != 0

/-- Row of the users table (models.py class User).  The password column is
stored but, as the claims check, never serialized. -/
structure User where
  id : Nat
  email : String
  password : String
  is_active : Bool
  created_at : Option Nat
  username : Option String
deriving Repr, DecidableEq

/-- User.serialize from models.py: id, email, username, is_active,
created_at — and no password. -/
def User.serialize (u : User) : Json :=
  [ ("id", Value.int u.id),
    ("email", Value.str u.email),
    ("username", match u.username with
      | none => Value.null
      | some s => Value.str s),
    ("is_active", Value.bool u.is_active),
    ("created_at", ofOptTime u.created_at) ]

/-- Row of the characters table (models.py class Character). -/
structure Character where
  id : Nat
  name : String
  gender : Option String
  birth_year : Option String
  height_cm : Option Int
  mass_kg : Option Int
  homeworld : Option String
  description : Option String
  image_url : Option String
deriving Repr, DecidableEq

/-- Character.serialize from models.py. -/
def Character.serialize (c : Character) : Json :=
  [ ("id", Value.int c.id),
    ("name", Value.str c.name),
    ("gender", match c.gender with | none => Value.null | some s => Value.str s),
    ("birth_year", match c.birth_year with | none => Value.null | some s => Value.str s),
    ("height_cm", ofOptInt c.height_cm),
    ("mass_kg", ofOptInt c.mass_kg),
    ("homeworld", match c.homeworld with | none => Value.null | some s => Value.str s),
    ("description", match c.description with | none => Value.null | some s => Value.str s),
    ("image_url", match c.image_url with | none => Value.null | some s => Value.str s) ]

/-- Row of the planets table (models.py class Planet). -/
structure Planet where
  id : Nat
  name : String
  climate : Option String
  terrain : Option String
  population : Option Int
  diameter_km : Option Int
  orbital_period_days : Option Int
  description : Option String
  image_url : Option String
deriving Repr, DecidableEq

/-- Planet.serialize from models.py. -/
def Planet.serialize (p : Planet) : Json :=
  [ ("id", Value.int p.id),
    ("name", Value.str p.name),
    ("climate", match p.climate with | none => Value.null | some s => Value.str s),
    ("terrain", match p.terrain with | none => Value.null | some s => Value.str s),
    ("population", ofOptInt p.population),
    ("diameter_km", ofOptInt p.diameter_km),
    ("orbital_period_days", ofOptInt p.orbital_period_days),
    ("description", match p.description with | none => Value.null | some s => Value.str s),
    ("image_url", match p.image_url with | none => Value.null | some s => Value.str s) ]

/-- Row of the favorites table (models.py class Favorite), together with
the two optional relationship attributes (character, planet) that the ORM
resolves from the foreign keys and that serialize reads.  The user
relationship is never read by serialize and is omitted. -/
structure Favorite where
  id : Nat
  user_id : Nat
  character_id : Option Nat
  planet_id : Option Nat
  created_at : Option Nat
  character : Option Character
  planet : Option Planet
deriving Repr, DecidableEq

/-- Favorite.serialize from models.py: a base dict of id, user_id and
created_at; then, when character_id is truthy, a character entry holding
the related Character serialized (or None when the relationship is
absent); then the same for planet_id/planet. -/
def Favorite.serialize (f : Favorite) : Json :=
  let base : Json :=
    [ ("id", Value.int f.id),
      ("user_id", Value.int f.user_id),
      ("created_at", ofOptTime f.created_at) ]
  let withChar : Json :=
    if pyTruthy f.character_id then
      base ++ [("character", match f.character with
        | some c => Value.obj c.serialize
        | none => Value.null)]
    else base
  if pyTruthy f.planet_id then
    withChar ++ [("planet", match f.planet with
      | some p => Value.obj p.serialize
      | none => Value.null)]
  else withChar

/-- Row of the comments table (models.py class Comment) with the author
relationship attribute read by serialize.  The post back-reference is not
read by any serialize method and is omitted to keep the structure
non-recursive. -/
structure Comment where
  id : Nat
  body : String
  author_id : Nat
  post_id : Nat
  created_at : Option Nat
  author : Option User
deriving Repr, DecidableEq

/-- Comment.serialize from models.py. -/
def Comment.serialize (c : Comment) : Json :=
  [ ("id", Value.int c.id),
    ("body", Value.str c.body),
    ("author_id", Value.int c.author_id),
    ("author", match c.author with
      | some u => Value.obj u.serialize
      | none => Value.null),
    ("post_id", Value.int c.post_id),
    ("created_at", ofOptTime c.created_at) ]

/-- Row of the posts table (models.py class Post) with the author
relationship and the comments collection read by serialize. -/
structure Post where
  id : Nat
  author_id : Nat
  title : String
  body : String
  created_at : Option Nat
  updated_at : Option Nat
  author : Option User
  comments : List Comment
deriving Repr, DecidableEq

/-- Post.serialize from models.py: embeds the author serialized and the
count of comments, not the comment list itself. -/
def Post.serialize (p : Post) : Json :=
  [ ("id", Value.int p.id),
    ("title", Value.str p.title),
    ("body", Value.str p.body),
    ("author_id", Value.int p.author_id),
    ("author", match p.author with
      | some u => Value.obj u.serialize
      | none => Value.null),
    ("created_at", ofOptTime p.created_at),
    ("updated_at", ofOptTime p.updated_at),
    ("comments_count", Value.int p.comments.length) ]

/-- The persisted state: one table per entity of models.py. -/
structure Database where
  users : List User
  characters : List Character
  planets : List Planet
  favorites : List Favorite
  posts : List Post
  comments : List Comment
deriving Repr, DecidableEq

/-- Typed failures surfaced by the storage layer for the constraints
declared in models.py; each violation carries the constraint name (or the
offending unique column, for the single-column unique indexes declared
with unique=True) or the referenced table. -/
inductive DBError where
  | uniqueViolation (which : String)
  | checkViolation (which : String)
  | fkViolation (table : String)
deriving Repr, DecidableEq

/-- The SQL check constraint ck_favorites_exactly_one_ref from
Favorite.table_args: (character_id IS NOT NULL AND planet_id IS NULL) OR
(character_id IS NULL AND planet_id IS NOT NULL). -/
def exactlyOneRef (cid pid : Option Nat) : Bool :=
  (cid.isSome && pid.isNone) || (cid.isNone && pid.isSome)

/-- SQL equality on a nullable unique column: two rows collide only when
both values are non-null and equal (NULL compares unknown, so rows with a
NULL in a unique index never conflict). -/
def sameNonNull (a b : Option Nat) : Bool :=
  match a, b with
  | some x, some y => x == y
  | _, _ => false

/-- Insert into the favorites table, enforcing in one atomic step the
constraints of Favorite.table_args: the exactly-one-reference check, the
two independent unique constraints uq_user_character_fav and
uq_user_planet_fav (each scoped to its own reference column), and the
three foreign keys.  On any violation the error is returned and no row is
persisted. -/
def insertFavorite (db : Database) (f : Favorite) : Except DBError Database :=
  if !exactlyOneRef f.character_id f.planet_id then
    Except.error (DBError.checkViolation "ck_favorites_exactly_one_ref")
  else if db.favorites.any (fun g =>
      g.user_id == f.user_id && sameNonNull g.character_id f.character_id) then
    Except.error (DBError.uniqueViolation "uq_user_character_fav")
  else if db.favorites.any (fun g =>
      g.user_id == f.user_id && sameNonNull g.planet_id f.planet_id) then
    Except.error (DBError.uniqueViolation "uq_user_planet_fav")
  else if !(db.users.any (fun u => u.id == f.user_id)) then
    Except.error (DBError.fkViolation "users")
  else if (match f.character_id with
      | some c => !(db.characters.any (fun ch => ch.id == c))
      | none => false) then
    Except.error (DBError.fkViolation "characters")
  else if (match f.planet_id with
      | some p => !(db.planets.any (fun pl => pl.id == p))
      | none => false) then
    Except.error (DBError.fkViolation "planets")
  else
    Except.ok { db with favorites := db.favorites ++ [f] }

/-- Update of the reference columns of the favorite row with primary key
fid, re-checking the same table constraints before the new row versions
are persisted; a violation aborts the whole update. -/
def updateFavoriteRefs (db : Database) (fid : Nat) (cid pid : Option Nat) :
    Except DBError Database :=
  if !exactlyOneRef cid pid then
    Except.error (DBError.checkViolation "ck_favorites_exactly_one_ref")
  else if db.favorites.any (fun f => f.id == fid &&
      db.favorites.any (fun g =>
        g.id != fid && g.user_id == f.user_id && sameNonNull g.character_id cid)) then
    Except.error (DBError.uniqueViolation "uq_user_character_fav")
  else if db.favorites.any (fun f => f.id == fid &&
      db.favorites.any (fun g =>
        g.id != fid && g.user_id == f.user_id && sameNonNull g.planet_id pid)) then
    Except.error (DBError.uniqueViolation "uq_user_planet_fav")
  else if (match cid with
      | some c => !(db.characters.any (fun ch => ch.id == c))
      | none => false) then
    Except.error (DBError.fkViolation "characters")
  else if (match pid with
      | some p => !(db.planets.any (fun pl => pl.id == p))
      | none => false) then
    Except.error (DBError.fkViolation "planets")
  else
    Except.ok { db with favorites := db.favorites.map (fun f =>
      if f.id == fid then { f with character_id := cid, planet_id := pid } else f) }

/-- Result state of a write, a failed write leaving the database as it
was (the transaction rolls back). -/
def runOp (db : Database) (r : Except DBError Database) : Database :=
  match r with
  | Except.ok db2 => db2
  | Except.error _ => db

/-- The row with primary key pid of the posts table belongs to user uid. -/
def postOfUser (db : Database) (uid pid : Nat) : Bool :=
  db.posts.any (fun p => p.author_id == uid && p.id == pid)

/-- Hard delete of a user row with all cascades of models.py in one
atomic operation: favorites via ondelete CASCADE on favorites.user_id,
posts via ondelete CASCADE on posts.author_id, and comments either via
ondelete CASCADE on comments.author_id or transitively via ondelete
CASCADE on comments.post_id when their post was a post of the deleted
user. -/
def deleteUser (db : Database) (uid : Nat) : Database :=
  { db with
    users := db.users.filter (fun u => u.id != uid),
    favorites := db.favorites.filter (fun f => f.user_id != uid),
    posts := db.posts.filter (fun p => p.author_id != uid),
    comments := db.comments.filter (fun c =>
      c.author_id != uid && !(postOfUser db uid c.post_id)) }

/-- Caller-visible input of a users-table insert: required email and
password, and the three columns that carry a column default or are
nullable.  SQLAlchemy applies `default=` only when the caller left the
attribute unset, so an Option models each of them. -/
structure NewUser where
  email : String
  password : String
  is_active : Option Bool
  created_at : Option Nat
  username : Option String
deriving Repr, DecidableEq

/-- Next autoincrement primary key for the users table. -/
def nextUserId (db : Database) : Nat :=
  (db.users.map User.id).foldr Nat.max 0 + 1

/-- Insert into the users table: the unique indexes on email and username
are checked (username with SQL null semantics), then the row is persisted
with the column defaults of models.py applied exactly as SQLAlchemy does:
is_active defaults to True and created_at to the current time only when
the caller supplied no value. -/
def insertUser (db : Database) (nu : NewUser) (now : Nat) : Except DBError Database :=
  if db.users.any (fun u => u.email == nu.email) then
    Except.error (DBError.uniqueViolation "email")
  else if (match nu.username with
      | some un => db.users.any (fun u => u.username == some un)
      | none => false) then
    Except.error (DBError.uniqueViolation "username")
  else
    Except.ok { db with users := db.users ++ [{
      id := nextUserId db,
      email := nu.email,
      password := nu.password,
      is_active := nu.is_active.getD true,
      created_at := some (nu.created_at.getD now),
      username := nu.username }] }

/-- Caller-visible input of a posts-table insert, with the two timestamp
columns optional for the same reason as in NewUser. -/
structure NewPost where
  author_id : Nat
  title : String
  body : String
  created_at : Option Nat
  updated_at : Option Nat
deriving Repr, DecidableEq

/-- Next autoincrement primary key for the posts table. -/
def nextPostId (db : Database) : Nat :=
  (db.posts.map Post.id).foldr Nat.max 0 + 1

/-- Insert into the posts table: the author foreign key is checked, and
created_at and updated_at receive the current time as column default only
when the caller supplied no value. -/
def insertPost (db : Database) (np : NewPost) (now : Nat) : Except DBError Database :=
  if !(db.users.any (fun u => u.id == np.author_id)) then
    Except.error (DBError.fkViolation "users")
  else
    Except.ok { db with posts := db.posts ++ [{
      id := nextPostId db,
      author_id := np.author_id,
      title := np.title,
      body := np.body,
      created_at := some (np.created_at.getD now),
      updated_at := some (np.updated_at.getD now),
      author := none,
      comments := [] }] }

/-- Update of the body of the post with primary key pid at time now: one
write that both mutates body and refreshes updated_at, the onupdate
trigger of Post.updated_at. -/
def updatePostBody (db : Database) (pid : Nat) (newBody : String) (now : Nat) :
    Database :=
  { db with posts := db.posts.map (fun p =>
      if p.id == pid then { p with body := newBody, updated_at := some now } else p) }

/-- The claimed invariant of the favorites table: every persisted row
references exactly one of a character and a planet. -/
def FavInv (db : Database) : Prop :=
  ∀ f ∈ db.favorites, exactlyOneRef f.character_id f.planet_id = true

instance (db : Database) : Decidable (FavInv db) :=
  List.decidableBAll _ db.favorites

/-! Concrete rows used by the witnesses. -/

/-- Sample user row. -/
def sampleUser : User :=
  { id := 1, email := "a@x.com", password := "pw", is_active := true,
    created_at := some 3, username := some "ana" }

/-- Second sample user row. -/
def sampleUser2 : User :=
  { id := 2, email := "b@x.com", password := "pw2", is_active := true,
    created_at := some 4, username := none }

/-- Sample character row. -/
def sampleCharacter : Character :=
  { id := 1, name := "Luke", gender := some "male", birth_year := none,
    height_cm := some 172, mass_kg := none, homeworld := some "Tatooine",
    description := none, image_url := none }

/-- Sample planet row. -/
def samplePlanet : Planet :=
  { id := 1, name := "Tatooine", climate := some "arid", terrain := none,
    population := some 200000, diameter_km := none, orbital_period_days := none,
    description := none, image_url := none }

/-- Sample favorite row referencing the sample character. -/
def sampleFavChar : Favorite :=
  { id := 1, user_id := 1, character_id := some 1, planet_id := none,
    created_at := some 5, character := some sampleCharacter, planet := none }

/-- Sample favorite row referencing the sample planet, owned by the second
user. -/
def sampleFavPlanet : Favorite :=
  { id := 2, user_id := 2, character_id := none, planet_id := some 1,
    created_at := some 6, character := none, planet := some samplePlanet }

/-- Sample post row authored by the first user. -/
def samplePost : Post :=
  { id := 1, author_id := 1, title := "t", body := "b", created_at := some 7,
    updated_at := some 7, author := some sampleUser, comments := [] }

/-- Sample post row authored by the second user. -/
def samplePost2 : Post :=
  { id := 2, author_id := 2, title := "t2", body := "b2", created_at := some 8,
    updated_at := some 8, author := some sampleUser2, comments := [] }

/-- Sample comment by the second user on the first user's post. -/
def sampleComment : Comment :=
  { id := 1, body := "c", author_id := 2, post_id := 1, created_at := some 9,
    author := some sampleUser2 }

/-- Sample comment by the second user on the second user's post. -/
def sampleComment2 : Comment :=
  { id := 2, body := "c2", author_id := 2, post_id := 2, created_at := some 9,
    author := some sampleUser2 }

/-- The empty database. -/
def emptyDb : Database :=
  { users := [], characters := [], planets := [], favorites := [],
    posts := [], comments := [] }

/-- Sample database holding every sample row. -/
def sampleDb : Database :=
  { users := [sampleUser, sampleUser2],
    characters := [sampleCharacter],
    planets := [samplePlanet],
    favorites := [sampleFavChar, sampleFavPlanet],
    posts := [samplePost, samplePost2],
    comments := [sampleComment, sampleComment2] }

/-! Helper lemmas shared by several claims. -/

/-- A NULL on the right never collides in a nullable unique column. -/
theorem sameNonNull_none_right (a : Option Nat) : sameNonNull a none = false := by
  cases a <;> rfl

/-- A NULL on the left never collides in a nullable unique column. -/
theorem sameNonNull_none_left (a : Option Nat) : sameNonNull none a = false := by
  cases a <;> rfl

/-! Claims. -/

/-- C5: User.serialize never exposes the password: the output has no
password key, and two users differing only in the password value
serialize to identical output. -/
theorem user_serialize_hides_password :
    (∀ u : User, "password" ∉ (User.serialize u).map Prod.fst) ∧
    (∀ (u : User) (pw : String),
      User.serialize { u with password := pw } = User.serialize u) := by
  constructor
  · intro u
    simp [User.serialize]
  · intro u pw
    rfl

/-- Witness for C5 at the sample user. -/
theorem user_serialize_hides_password_witness :
    "password" ∉ (User.serialize sampleUser).map Prod.fst ∧
    User.serialize { sampleUser with password := "other" } = User.serialize sampleUser :=
  ⟨user_serialize_hides_password.1 sampleUser,
   user_serialize_hides_password.2 sampleUser "other"⟩

/-- C9: Post.serialize embeds the author's full serialized representation
and the count of the post's comments, and exposes no comment-list key:
its keys are exactly id, title, body, author_id, author, created_at,
updated_at and comments_count. -/
theorem post_serialize_embeds_author_and_count :
    ∀ (p : Post) (u : User), p.author = some u →
      ("author", Value.obj (User.serialize u)) ∈ Post.serialize p ∧
      ("comments_count", Value.int p.comments.length) ∈ Post.serialize p ∧
      (Post.serialize p).map Prod.fst =
        ["id", "title", "body", "author_id", "author",
         "created_at", "updated_at", "comments_count"] ∧
      "comments" ∉ (Post.serialize p).map Prod.fst := by
  intro p u h
  refine ⟨?_, ?_, ?_, ?_⟩
  · simp [Post.serialize, h]
  · simp [Post.serialize]
  · simp [Post.serialize]
  · simp [Post.serialize]

/-- Witness for C9 at the sample post. -/
theorem post_serialize_embeds_author_and_count_witness :
    ("author", Value.obj (User.serialize sampleUser)) ∈ Post.serialize samplePost ∧
    ("comments_count", Value.int (samplePost.comments.length)) ∈ Post.serialize samplePost :=
  ⟨(post_serialize_embeds_author_and_count samplePost sampleUser rfl).1,
   (post_serialize_embeds_author_and_count samplePost sampleUser rfl).2.1⟩

/-- C6: a Favorite referencing a Character (relationship resolved, foreign
key holding the character's primary key, which as a row id is nonzero, and
planet reference null per the check constraint) serializes with a nested
character representation and no planet key; symmetrically for a Favorite
referencing a Planet. -/
theorem favorite_serialize_nested_reference :
    ∀ f : Favorite,
      (∀ ch : Character, f.character = some ch → f.character_id = some ch.id →
        ch.id ≠ 0 → f.planet_id = none →
          ("character", Value.obj ch.serialize) ∈ Favorite.serialize f ∧
          "planet" ∉ (Favorite.serialize f).map Prod.fst) ∧
      (∀ pl : Planet, f.planet = some pl → f.planet_id = some pl.id →
        pl.id ≠ 0 → f.character_id = none →
          ("planet", Value.obj pl.serialize) ∈ Favorite.serialize f ∧
          "character" ∉ (Favorite.serialize f).map Prod.fst) := by
  intro f
  constructor
  · intro ch hrel hid hne hpl
    constructor
    · simp [Favorite.serialize, pyTruthy, hrel, hid, hne, hpl]
    · simp [Favorite.serialize, pyTruthy, hid, hne, hpl]
  · intro pl hrel hid hne hch
    constructor
    · simp [Favorite.serialize, pyTruthy, hrel, hid, hne, hch]
    · simp [Favorite.serialize, pyTruthy, hid, hne, hch]

/-- Witness for C6 at the two sample favorites. -/
theorem favorite_serialize_nested_reference_witness :
    (("character", Value.obj sampleCharacter.serialize) ∈ Favorite.serialize sampleFavChar ∧
      "planet" ∉ (Favorite.serialize sampleFavChar).map Prod.fst) ∧
    (("planet", Value.obj samplePlanet.serialize) ∈ Favorite.serialize sampleFavPlanet ∧
      "character" ∉ (Favorite.serialize sampleFavPlanet).map Prod.fst) :=
  ⟨(favorite_serialize_nested_reference sampleFavChar).1 sampleCharacter rfl rfl
      (by decide) rfl,
   (favorite_serialize_nested_reference sampleFavPlanet).2 samplePlanet rfl rfl
      (by decide) rfl⟩

/-- C10: when a reference id column of a Favorite is truthy but the
related object is absent, Favorite.serialize still emits the
corresponding key, mapped to null; and when the id column is falsy
(null, or the truthiness edge value 0) the key is absent, so presence of
the key is decided by truthiness of the foreign key alone. -/
theorem favorite_serialize_key_by_truthiness :
    ∀ f : Favorite,
      (∀ c : Nat, f.character_id = some c → c ≠ 0 → f.character = none →
        ("character", Value.null) ∈ Favorite.serialize f) ∧
      (∀ p : Nat, f.planet_id = some p → p ≠ 0 → f.planet = none →
        ("planet", Value.null) ∈ Favorite.serialize f) ∧
      (pyTruthy f.character_id = false →
        "character" ∉ (Favorite.serialize f).map Prod.fst) ∧
      (pyTruthy f.planet_id = false →
        "planet" ∉ (Favorite.serialize f).map Prod.fst) := by
  intro f
  refine ⟨?_, ?_, ?_, ?_⟩
  · intro c hid hne hrel
    have hct : pyTruthy f.character_id = true := by simp [pyTruthy, hid, hne]
    by_cases hp : pyTruthy f.planet_id = true <;>
      simp [Favorite.serialize, hct, hrel, hp]
  · intro p hid hne hrel
    have hpt : pyTruthy f.planet_id = true := by simp [pyTruthy, hid, hne]
    by_cases hc : pyTruthy f.character_id = true <;>
      simp [Favorite.serialize, hpt, hrel, hc]
  · intro hc
    by_cases hp : pyTruthy f.planet_id = true <;>
      simp [Favorite.serialize, hc, hp]
  · intro hp
    by_cases hc : pyTruthy f.character_id = true <;>
      simp [Favorite.serialize, hc, hp]

/-- Dangling favorite used by the C10 witness: the character foreign key
is set while the relationship object is absent. -/
def danglingFavChar : Favorite :=
  { id := 3, user_id := 1, character_id := some 7, planet_id := none,
    created_at := some 5, character := none, planet := none }

/-- Witness for C10 at a dangling favorite. -/
theorem favorite_serialize_key_by_truthiness_witness :
    ("character", Value.null) ∈ Favorite.serialize danglingFavChar ∧
    "planet" ∉ (Favorite.serialize danglingFavChar).map Prod.fst :=
  ⟨(favorite_serialize_key_by_truthiness danglingFavChar).1 7 rfl (by decide) rfl,
   (favorite_serialize_key_by_truthiness danglingFavChar).2.2.2 rfl⟩

/-- A successful favorites insert appends exactly the checked row. -/
theorem insertFavorite_ok {db : Database} {f : Favorite} {db2 : Database}
    (h : insertFavorite db f = Except.ok db2) :
    exactlyOneRef f.character_id f.planet_id = true ∧
    db2.favorites = db.favorites ++ [f] := by
  unfold insertFavorite at h
  split at h
  next h1 => simp at h
  next h1 =>
    split at h
    next => simp at h
    next =>
      split at h
      next => simp at h
      next =>
        split at h
        next => simp at h
        next =>
          split at h
          next => simp at h
          next =>
            split at h
            next => simp at h
            next =>
              rw [Except.ok.injEq] at h
              subst h
              exact ⟨by simpa using h1, rfl⟩

/-- A successful favorites reference update rewrites exactly the rows with
the given primary key to the checked reference pair. -/
theorem updateFavoriteRefs_ok {db : Database} {fid : Nat} {cid pid : Option Nat}
    {db2 : Database}
    (h : updateFavoriteRefs db fid cid pid = Except.ok db2) :
    exactlyOneRef cid pid = true ∧
    db2.favorites = db.favorites.map (fun f =>
      if f.id == fid then { f with character_id := cid, planet_id := pid } else f) := by
  unfold updateFavoriteRefs at h
  split at h
  next h1 => simp at h
  next h1 =>
    split at h
    next => simp at h
    next =>
      split at h
      next => simp at h
      next =>
        split at h
        next => simp at h
        next =>
          split at h
          next => simp at h
          next =>
            rw [Except.ok.injEq] at h
            subst h
            exact ⟨by simpa using h1, rfl⟩

/-- C1: every favorites write preserves the exactly-one-reference
invariant, and a write that would leave both references null or both set
is rejected with the check-constraint violation, persisting nothing (the
failed operation returns only the error, so the state is untouched). -/
theorem favorites_exactly_one_ref_enforced :
    (∀ (db : Database) (f : Favorite) (db2 : Database), FavInv db →
      insertFavorite db f = Except.ok db2 → FavInv db2) ∧
    (∀ (db : Database) (fid : Nat) (cid pid : Option Nat) (db2 : Database),
      FavInv db → updateFavoriteRefs db fid cid pid = Except.ok db2 → FavInv db2) ∧
    (∀ (db : Database) (f : Favorite),
      exactlyOneRef f.character_id f.planet_id = false →
      insertFavorite db f =
        Except.error (DBError.checkViolation "ck_favorites_exactly_one_ref") ∧
      runOp db (insertFavorite db f) = db) ∧
    (∀ (db : Database) (fid : Nat) (cid pid : Option Nat),
      exactlyOneRef cid pid = false →
      updateFavoriteRefs db fid cid pid =
        Except.error (DBError.checkViolation "ck_favorites_exactly_one_ref") ∧
      runOp db (updateFavoriteRefs db fid cid pid) = db) := by
  refine ⟨?_, ?_, ?_, ?_⟩
  · intro db f db2 hinv h
    obtain ⟨hone, hfavs⟩ := insertFavorite_ok h
    intro g hg
    rw [hfavs] at hg
    rcases List.mem_append.1 hg with hg | hg
    · exact hinv g hg
    · obtain rfl := List.mem_singleton.1 hg
      exact hone
  · intro db fid cid pid db2 hinv h
    obtain ⟨hone, hfavs⟩ := updateFavoriteRefs_ok h
    intro g hg
    rw [hfavs] at hg
    rcases List.mem_map.1 hg with ⟨f, hf, rfl⟩
    by_cases hid : f.id == fid
    · simp only [hid, if_true]
      exact hone
    · simp only [hid, if_false, Bool.false_eq_true]
      exact hinv f hf
  · intro db f h
    have herr : insertFavorite db f =
        Except.error (DBError.checkViolation "ck_favorites_exactly_one_ref") := by
      unfold insertFavorite
      simp [h]
    exact ⟨herr, by rw [herr]; rfl⟩
  · intro db fid cid pid h
    have herr : updateFavoriteRefs db fid cid pid =
        Except.error (DBError.checkViolation "ck_favorites_exactly_one_ref") := by
      unfold updateFavoriteRefs
      simp [h]
    exact ⟨herr, by rw [herr]; rfl⟩

/-- Favorite row violating the check constraint: both references set. -/
def bothRefsFav : Favorite :=
  { id := 3, user_id := 2, character_id := some 1, planet_id := some 1,
    created_at := some 5, character := none, planet := none }

/-- Favorite row the C1 witness inserts successfully. -/
def okInsertFav : Favorite :=
  { id := 3, user_id := 2, character_id := some 1, planet_id := none,
    created_at := some 5, character := none, planet := none }

/-- Result state of the successful C1 witness insert. -/
def c1OkDb : Database := runOp sampleDb (insertFavorite sampleDb okInsertFav)

/-- Witness for C1: on the sample database a valid insert preserves the
invariant and a both-references insert fails with the check violation. -/
theorem favorites_exactly_one_ref_enforced_witness :
    FavInv c1OkDb ∧
    insertFavorite sampleDb bothRefsFav =
      Except.error (DBError.checkViolation "ck_favorites_exactly_one_ref") :=
  ⟨favorites_exactly_one_ref_enforced.1 sampleDb okInsertFav c1OkDb (by decide) rfl,
   (favorites_exactly_one_ref_enforced.2.2.1 sampleDb bothRefsFav (by decide)).1⟩

/-- C2: deleting a user removes, in the one atomic deleteUser operation,
the user row and every dependent row: no favorite of the user, no post
authored by the user, and no comment authored by the user or attached to
any of the user's posts survives. -/
theorem delete_user_cascades :
    ∀ (db : Database) (uid : Nat),
      (∀ u ∈ (deleteUser db uid).users, u.id ≠ uid) ∧
      (∀ f ∈ (deleteUser db uid).favorites, f.user_id ≠ uid) ∧
      (∀ p ∈ (deleteUser db uid).posts, p.author_id ≠ uid) ∧
      (∀ c ∈ (deleteUser db uid).comments, c.author_id ≠ uid ∧
        ∀ p ∈ db.posts, p.author_id = uid → c.post_id ≠ p.id) := by
  intro db uid
  refine ⟨?_, ?_, ?_, ?_⟩
  · intro u hu
    have hc := (List.mem_filter.1 hu).2
    simpa using hc
  · intro f hf
    have hc := (List.mem_filter.1 hf).2
    simpa using hc
  · intro p hp
    have hc := (List.mem_filter.1 hp).2
    simpa using hc
  · intro c hc
    have hcond := (List.mem_filter.1 hc).2
    rw [Bool.and_eq_true] at hcond
    obtain ⟨h1, h2⟩ := hcond
    refine ⟨by simpa using h1, ?_⟩
    intro p hp hpa heq
    have htrue : postOfUser db uid c.post_id = true := by
      apply List.any_eq_true.2
      exact ⟨p, hp, by simp [hpa, heq]⟩
    rw [htrue] at h2
    simp at h2

/-- Witness for C2: on the sample database, deleting user 1 leaves the
surviving favorite, post and comment rows free of any dependency on
user 1. -/
theorem delete_user_cascades_witness :
    sampleFavPlanet.user_id ≠ 1 ∧ samplePost2.author_id ≠ 1 ∧
    sampleComment2.author_id ≠ 1 :=
  ⟨(delete_user_cascades sampleDb 1).2.1 sampleFavPlanet (by decide),
   (delete_user_cascades sampleDb 1).2.2.1 samplePost2 (by decide),
   ((delete_user_cascades sampleDb 1).2.2.2 sampleComment2 (by decide)).1⟩

/-- C4: inserting a user whose email is already present fails with the
unique violation on email and leaves the users table unchanged, with the
same rows and the same row count. -/
theorem user_email_unique_enforced :
    ∀ (db : Database) (nu : NewUser) (now : Nat),
      (∃ u ∈ db.users, u.email = nu.email) →
      insertUser db nu now = Except.error (DBError.uniqueViolation "email") ∧
      (runOp db (insertUser db nu now)).users = db.users ∧
      (runOp db (insertUser db nu now)).users.length = db.users.length := by
  intro db nu now hex
  have hany : db.users.any (fun u => u.email == nu.email) = true := by
    rcases hex with ⟨u, hu, he⟩
    exact List.any_eq_true.2 ⟨u, hu, by simp [he]⟩
  have herr : insertUser db nu now = Except.error (DBError.uniqueViolation "email") := by
    unfold insertUser
    simp [hany]
  exact ⟨herr, by rw [herr]; rfl, by rw [herr]; rfl⟩

/-- Insert request reusing the sample user's email. -/
def dupEmailNewUser : NewUser :=
  { email := "a@x.com", password := "pw3", is_active := none,
    created_at := none, username := none }

/-- Witness for C4: reinserting the sample email fails and leaves the
users table as it was. -/
theorem user_email_unique_enforced_witness :
    insertUser sampleDb dupEmailNewUser 11 =
      Except.error (DBError.uniqueViolation "email") ∧
    (runOp sampleDb (insertUser sampleDb dupEmailNewUser 11)).users = sampleDb.users :=
  ⟨(user_email_unique_enforced sampleDb dupEmailNewUser 11
      ⟨sampleUser, by decide, rfl⟩).1,
   (user_email_unique_enforced sampleDb dupEmailNewUser 11
      ⟨sampleUser, by decide, rfl⟩).2.1⟩

/-- C3: a second favorite with the same (user, character) pair is rejected
by uq_user_character_fav, while a character favorite and a planet favorite
for the same user both insert successfully: the (user, character) and
(user, planet) scopes are two independent unique constraints, the planet
insert passing the character constraint because its character reference is
null, so no single composite constraint links the two columns. -/
theorem favorite_uniqueness_scopes :
    (∀ (db : Database) (u c : Nat) (f : Favorite),
      f.user_id = u → f.character_id = some c → f.planet_id = none →
      (∃ g ∈ db.favorites, g.user_id = u ∧ g.character_id = some c) →
      insertFavorite db f =
        Except.error (DBError.uniqueViolation "uq_user_character_fav")) ∧
    (∀ (db : Database) (u c p : Nat) (fc fp : Favorite),
      fc.user_id = u → fc.character_id = some c → fc.planet_id = none →
      fp.user_id = u → fp.character_id = none → fp.planet_id = some p →
      db.users.any (fun x => x.id == u) = true →
      db.characters.any (fun x => x.id == c) = true →
      db.planets.any (fun x => x.id == p) = true →
      db.favorites.any (fun g =>
        g.user_id == u && sameNonNull g.character_id (some c)) = false →
      db.favorites.any (fun g =>
        g.user_id == u && sameNonNull g.planet_id (some p)) = false →
      insertFavorite db fc =
        Except.ok { db with favorites := db.favorites ++ [fc] } ∧
      insertFavorite { db with favorites := db.favorites ++ [fc] } fp =
        Except.ok { db with favorites := (db.favorites ++ [fc]) ++ [fp] }) := by
  constructor
  · intro db u c f h1 h2 h3 hex
    have hany : db.favorites.any (fun g =>
        g.user_id == u && sameNonNull g.character_id (some c)) = true := by
      rcases hex with ⟨g, hg, hgu, hgc⟩
      exact List.any_eq_true.2 ⟨g, hg, by simp [hgu, hgc, sameNonNull]⟩
    unfold insertFavorite
    simp [exactlyOneRef, h1, h2, h3, hany]
  · intro db u c p fc fp hc1 hc2 hc3 hp1 hp2 hp3 hu hch hpl hnc hnp
    constructor
    · unfold insertFavorite
      simp [exactlyOneRef, hc1, hc2, hc3, hu, hch, hnc, sameNonNull_none_right]
    · unfold insertFavorite
      simp [exactlyOneRef, hc1, hc2, hc3, hp1, hp2, hp3, hu, hch, hpl, hnc, hnp,
        sameNonNull_none_right, sameNonNull_none_left, List.any_append]

/-- Duplicate of the sample character favorite by the same user. -/
def dupCharFav : Favorite :=
  { id := 4, user_id := 1, character_id := some 1, planet_id := none,
    created_at := some 6, character := none, planet := none }

/-- Database for the C3 success witness: one user, the catalog rows, and
no favorites yet. -/
def c3Db : Database :=
  { users := [sampleUser], characters := [sampleCharacter],
    planets := [samplePlanet], favorites := [], posts := [], comments := [] }

/-- Character favorite inserted first in the C3 witness. -/
def c3CharFav : Favorite :=
  { id := 1, user_id := 1, character_id := some 1, planet_id := none,
    created_at := some 5, character := none, planet := none }

/-- Planet favorite inserted second in the C3 witness, same user. -/
def c3PlanetFav : Favorite :=
  { id := 2, user_id := 1, character_id := none, planet_id := some 1,
    created_at := some 6, character := none, planet := none }

/-- Witness for C3: on the sample database the duplicate (user, character)
favorite fails, and on a fresh database the character and planet
favorites of one user both insert. -/
theorem favorite_uniqueness_scopes_witness :
    insertFavorite sampleDb dupCharFav =
      Except.error (DBError.uniqueViolation "uq_user_character_fav") ∧
    insertFavorite c3Db c3CharFav =
      Except.ok { c3Db with favorites := c3Db.favorites ++ [c3CharFav] } ∧
    insertFavorite { c3Db with favorites := c3Db.favorites ++ [c3CharFav] } c3PlanetFav =
      Except.ok { c3Db with favorites := (c3Db.favorites ++ [c3CharFav]) ++ [c3PlanetFav] } :=
  ⟨favorite_uniqueness_scopes.1 sampleDb 1 1 dupCharFav rfl rfl rfl
      ⟨sampleFavChar, by decide, rfl, rfl⟩,
   (favorite_uniqueness_scopes.2 c3Db 1 1 1 c3CharFav c3PlanetFav rfl rfl rfl rfl rfl rfl
      (by decide) (by decide) (by decide) (by decide) (by decide)).1,
   (favorite_uniqueness_scopes.2 c3Db 1 1 1 c3CharFav c3PlanetFav rfl rfl rfl rfl rfl rfl
      (by decide) (by decide) (by decide) (by decide) (by decide)).2⟩

/-- C7: updating a post's body sets updated_at to the write time in the
same single updatePostBody write that mutates the body, and whenever the
write-time clock has advanced past the prior updated_at the new value is
strictly greater than the prior one. -/
theorem post_update_refreshes_updated_at :
    ∀ (db : Database) (pid : Nat) (b : String) (now : Nat),
      (∀ p2 ∈ (updatePostBody db pid b now).posts, p2.id = pid →
        p2.body = b ∧ p2.updated_at = some now) ∧
      (∀ p ∈ db.posts, p.id = pid → ∀ t0, p.updated_at = some t0 → t0 < now →
        ∀ p2 ∈ (updatePostBody db pid b now).posts, p2.id = pid →
          ∃ t1, p2.updated_at = some t1 ∧ t0 < t1) := by
  intro db pid b now
  constructor
  · intro p2 hp2 hid
    rcases List.mem_map.1 hp2 with ⟨p, hp, rfl⟩
    by_cases h : p.id == pid
    · simp [h]
    · rw [if_neg (by simpa using h)] at hid ⊢
      exact absurd hid (by simpa using h)
  · intro p hp hid t0 ht0 hlt p2 hp2 hid2
    rcases List.mem_map.1 hp2 with ⟨q, hq, rfl⟩
    by_cases h : q.id == pid
    · exact ⟨now, by simp [h], hlt⟩
    · rw [if_neg (by simpa using h)] at hid2 ⊢
      exact absurd hid2 (by simpa using h)

/-- Witness for C7: updating the sample post's body on the sample
database at a later time yields a strictly larger updated_at. -/
theorem post_update_refreshes_updated_at_witness :
    ∃ t1, ({ samplePost with body := "new", updated_at := some 20 } : Post).updated_at
        = some t1 ∧ 7 < t1 :=
  (post_update_refreshes_updated_at sampleDb 1 "new" 20).2 samplePost (by decide) rfl
    7 rfl (by decide) { samplePost with body := "new", updated_at := some 20 }
    (by decide) rfl

/-- A successful users insert appends exactly one row, carrying the
column defaults of models.py: is_active true and created_at the insert
time when the caller supplied none, and the caller's values otherwise. -/
theorem insertUser_ok {db : Database} {nu : NewUser} {now : Nat} {db2 : Database}
    (h : insertUser db nu now = Except.ok db2) :
    db2.users = db.users ++ [{
      id := nextUserId db,
      email := nu.email,
      password := nu.password,
      is_active := nu.is_active.getD true,
      created_at := some (nu.created_at.getD now),
      username := nu.username }] := by
  unfold insertUser at h
  split at h
  next => simp at h
  next =>
    split at h
    next => simp at h
    next =>
      rw [Except.ok.injEq] at h
      subst h
      rfl

/-- A successful posts insert appends exactly one row, with created_at
and updated_at defaulting to the insert time only when the caller
supplied none. -/
theorem insertPost_ok {db : Database} {np : NewPost} {now : Nat} {db2 : Database}
    (h : insertPost db np now = Except.ok db2) :
    db2.posts = db.posts ++ [{
      id := nextPostId db,
      author_id := np.author_id,
      title := np.title,
      body := np.body,
      created_at := some (np.created_at.getD now),
      updated_at := some (np.updated_at.getD now),
      author := none,
      comments := [] }] := by
  unfold insertPost at h
  split at h
  next => simp at h
  next =>
    rw [Except.ok.injEq] at h
    subst h
    rfl

/-- Insert request that explicitly supplies created_at = 5, as a caller
may, since the created_at column is writable on construction. -/
def explicitCreatedAtUser : NewUser :=
  { email := "c@x.com", password := "pw", is_active := none,
    created_at := some 5, username := none }

/-- Counterexample to C8: inserting a user at storage time 10 with a
caller-supplied created_at of 5 persists 5, not 10 — the column default
datetime.utcnow of models.py is applied only when the caller left the
attribute unset, so a caller-supplied value is used. -/
theorem caller_supplied_created_at_is_used :
    (runOp emptyDb (insertUser emptyDb explicitCreatedAtUser 10)).users.map
        User.created_at = [some 5] ∧
    (some 5 : Option Nat) ≠ some 10 := by
  constructor
  · rfl
  · decide

/-- C8 as amended: the timestamp columns are filled by the storage layer
with the operation time as a column default exactly when the caller
supplies no value; a caller-supplied value is stored as given (the
default is an ORM column default, not a server-side one that would
override the caller). -/
theorem timestamp_defaults_fill_absent_values :
    ∀ (db : Database) (nu : NewUser) (np : NewPost) (now : Nat) (db2 db3 : Database),
      (insertUser db nu now = Except.ok db2 →
        db2.users.map User.created_at =
          db.users.map User.created_at ++ [some (nu.created_at.getD now)]) ∧
      (insertPost db np now = Except.ok db3 →
        db3.posts.map (fun p => (p.created_at, p.updated_at)) =
          db.posts.map (fun p => (p.created_at, p.updated_at)) ++
            [(some (np.created_at.getD now), some (np.updated_at.getD now))]) := by
  intro db nu np now db2 db3
  constructor
  · intro h
    rw [insertUser_ok h]
    simp
  · intro h
    rw [insertPost_ok h]
    simp

/-- Insert request supplying no timestamp, for the amended C8 witness. -/
def defaultedNewUser : NewUser :=
  { email := "d@x.com", password := "pw", is_active := none,
    created_at := none, username := none }

/-- Post insert request supplying no timestamps, for the amended C8
witness. -/
def defaultedNewPost : NewPost :=
  { author_id := 1, title := "t", body := "b",
    created_at := none, updated_at := none }

/-- Result of inserting the defaulted user into the sample database at
time 12. -/
def c8UserDb : Database := runOp sampleDb (insertUser sampleDb defaultedNewUser 12)

/-- Result of inserting the defaulted post into the sample database at
time 12. -/
def c8PostDb : Database := runOp sampleDb (insertPost sampleDb defaultedNewPost 12)

/-- Witness for the amended C8: with no caller-supplied timestamps the
inserted rows carry the storage time 12. -/
theorem timestamp_defaults_fill_absent_values_witness :
    c8UserDb.users.map User.created_at =
      sampleDb.users.map User.created_at ++ [some (defaultedNewUser.created_at.getD 12)] ∧
    c8PostDb.posts.map (fun p => (p.created_at, p.updated_at)) =
      sampleDb.posts.map (fun p => (p.created_at, p.updated_at)) ++
        [(some (defaultedNewPost.created_at.getD 12),
          some (defaultedNewPost.updated_at.getD 12))] :=
  ⟨(timestamp_defaults_fill_absent_values sampleDb defaultedNewUser defaultedNewPost 12
      c8UserDb c8PostDb).1 rfl,
   (timestamp_defaults_fill_absent_values sampleDb defaultedNewUser defaultedNewPost 12
      c8UserDb c8PostDb).2 rfl⟩

end Models
